import Mathlib

/-!
Shallow embedding of the MetaMask React tutorial dapp.

The functional code of the repository is the single component in
src/src/App.tsx: it detects an injected wallet provider once at mount,
keeps a wallet record `{ accounts }` in component state, toggles
connect/disconnect on a button, and renders a provider-presence line, an
optional button and an optional accounts line.  The README
(src/README.md) is a tutorial whose later code blocks add an extended
wallet record `{ accounts, balance, chainId }`, event callbacks
(`refreshAccounts`, `refreshChain`) and two formatting helpers imported
from a `./utils` module that is not present in the repository.

Asynchronous provider calls are modelled by passing the provider's
response in as an `Except` value; side effects (RPC requests issued,
event names subscribed) are made explicit as returned traces.
-/

namespace MetamaskDapp

/-- The wallet record of src/src/App.tsx: `initialState = { accounts: [] }`;
the component tracks only the list of account address strings. -/
structure WalletState where
  accounts : List String
deriving DecidableEq

/-- `const initialState = { accounts: [] }` (src/src/App.tsx line 7). -/
def initialState : WalletState := { accounts := [] }

/-- Component state: `hasProvider` is `boolean | null` (`null` before the
detection effect resolves), and `wallet` is the wallet record. -/
structure AppState where
  hasProvider : Option Bool
  wallet : WalletState
deriving DecidableEq

/-- JS truthiness of the `boolean | null` value `hasProvider`: only
`true` is truthy (`null` and `false` are falsy). -/
def truthy (b : Option Bool) : Bool := b = some true

/-- The RPC methods that appear in the repository's code, issued through
`provider.request`. -/
inductive RpcMethod
  | eth_requestAccounts
  | eth_accounts
  | eth_chainId
  | eth_getBalance
deriving DecidableEq

/-- `updateWallet = (accounts) => { setWallet({ accounts }) }`
(src/src/App.tsx lines 19-21): replaces the wallet record wholesale with
the given accounts list.  Only the wallet field of the component state
changes. -/
def updateWallet (accounts : List String) (s : AppState) : AppState :=
  { s with wallet := { accounts := accounts } }

/-- `handleConnect` (src/src/App.tsx lines 23-34).  When
`wallet.accounts.length > 0` the disconnect branch runs
`updateWallet([])` and issues no provider request.  Otherwise the
connect branch awaits
`window.ethereum.request({ method: "eth_requestAccounts" })`, whose
outcome is the argument `resp`: on resolution the returned list is
passed to `updateWallet`; on rejection nothing after the `await` runs
and the rejection propagates out of the handler (there is no
try/catch).  The result is the new component state together with the
trace of RPC methods whose results were consumed, or the propagated
error. -/
def handleConnect (resp : Except String (List String)) (s : AppState) :
    Except String (AppState × List RpcMethod) :=
  if s.wallet.accounts.length > 0 then
    Except.ok (updateWallet [] s, [])
  else
    match resp with
    | Except.error e => Except.error e
    | Except.ok accounts =>
        Except.ok (updateWallet accounts s, [RpcMethod.eth_requestAccounts])

/-- The component state after a `handleConnect` run: on success the new
state; on a propagated rejection no `setWallet` call ran (the `await`
is the first statement of the connect branch), so the state is the old
one. -/
def stateAfter (r : Except String (AppState × List RpcMethod)) (s : AppState) : AppState :=
  match r with
  | Except.ok (s2, _) => s2
  | Except.error _ => s

/-- Disconnected: the accounts list is empty (spec §3 invariant). -/
abbrev Disconnected (s : AppState) : Prop := s.wallet.accounts = []

/-- Connected: the accounts list is non-empty. -/
abbrev Connected (s : AppState) : Prop := s.wallet.accounts ≠ []

/-- The provider notification events named by the spec. -/
inductive ProviderEvent
  | accountsChanged (accounts : List String)
  | chainChanged (chainId : String)
deriving DecidableEq

/-- src/src/App.tsx registers no provider event listener: its single
`useEffect` only awaits `detectEthereumProvider` and calls
`setHasProvider`; no `window.ethereum.on` call occurs anywhere in the
file.  A provider event therefore invokes no component code, and the
component state is unchanged. -/
def deliverProviderEvent (_e : ProviderEvent) (s : AppState) : AppState := s

/-- The mount effect of src/src/App.tsx (lines 10-17): the `useEffect`
has an empty dependency array, so it runs once, at mount.  Its body
calls `getProvider`, which awaits
`detectEthereumProvider({ silent: true })` — the detection outcome is
the argument `detected` — and calls `setHasProvider(Boolean(provider))`.
Nothing else happens: no `provider.request` call is issued and no event
listener is registered.  The result is the component state after the
effect, the trace of RPC methods issued, and the list of event names
subscribed. -/
def mountEffect (detected : Bool) : AppState × List RpcMethod × List String :=
  ({ hasProvider := some detected, wallet := initialState }, [], [])

/-- The view rendered by the component (src/src/App.tsx lines 36-51):
the provider-presence line, the optional connect/disconnect button with
its label, and the optional accounts line. -/
structure View where
  providerText : String
  button : Option String
  accountsLine : Option String
deriving DecidableEq

/-- The JSX of src/src/App.tsx lines 36-51: the presence line reads
`Injected Provider {hasProvider ? "DOES" : "DOES NOT"} Exist`; the
button is rendered under `{hasProvider && ...}` with label
`Disconnect MetaMask` when `wallet.accounts.length > 0` and
`Connect MetaMask` otherwise; the accounts line is rendered under
`{wallet.accounts.length > 0 && ...}` and shows `wallet.accounts[0]`. -/
def render (s : AppState) : View :=
  { providerText :=
      "Injected Provider " ++ (if truthy s.hasProvider then "DOES" else "DOES NOT") ++ " Exist",
    button :=
      if truthy s.hasProvider then
        some (if s.wallet.accounts.length > 0 then "Disconnect MetaMask" else "Connect MetaMask")
      else none,
    accountsLine :=
      if s.wallet.accounts.length > 0 then
        some ("Wallet Accounts: " ++ s.wallet.accounts.headD "")
      else none }

/-- src/src/App.tsx never reads `provider.isMetaMask`: the JSX
references only `hasProvider` and `wallet`, so the rendered view is
independent of the provider's `isMetaMask` flag.  This definition takes
the flag and, as in the source, does not consult it. -/
def renderGivenIsMetaMask (_isMetaMask : Bool) (s : AppState) : View := render s

/-- The extended wallet record of the README tutorial code
(src/README.md, section "Manage More MetaMask State Locally"):
`initialState = { accounts: [], balance: "", chainId: "" }`. -/
structure WalletStateFull where
  accounts : List String
  balance : String
  chainId : String
deriving DecidableEq

/-- `refreshChain` from the README tutorial code (src/README.md):
`const refreshChain = (chainId) => { setWallet((wallet) => ({ ...wallet, chainId })) }`
— the `chainChanged` callback patches only the `chainId` field of the
extended wallet record. -/
def refreshChain (chainId : String) (w : WalletStateFull) : WalletStateFull :=
  { w with chainId := chainId }

/-- Value of a hexadecimal digit character, in either case; `none` for a
non-hex character. -/
def hexDigitVal (c : Char) : Option Nat :=
  if '0' ≤ c ∧ c ≤ '9' then some (c.toNat - '0'.toNat)
  else if 'a' ≤ c ∧ c ≤ 'f' then some (c.toNat - 'a'.toNat + 10)
  else if 'A' ≤ c ∧ c ≤ 'F' then some (c.toNat - 'A'.toNat + 10)
  else none

/-- Modelled from the spec: the `./utils` module imported by the README's
App code (providing `formatBalance` and `formatChainAsNum`) is not
present in the repository.  Per the spec (§4.4), `formatChainAsNum`
parses a `0x`-prefixed hexadecimal string as a base-16 integer (the
README notes it uses `parseInt`), and fails on malformed input. -/
def formatChainAsNum (hexChainId : String) : Option Nat :=
  match hexChainId.toList with
  | '0' :: 'x' :: digits =>
      if digits.isEmpty then none
      else digits.foldl
        (fun acc c => acc.bind (fun a => (hexDigitVal c).map (fun d => 16 * a + d)))
        (some 0)
  | _ => none

/-! ## Theorems -/

/-- C1: from a Disconnected state (accounts empty), when
`eth_requestAccounts` resolves with a non-empty list of address strings,
`handleConnect` replaces `WalletState.accounts` with exactly that list —
so `accounts[0]` equals the first returned address — and the Connected
state is entered; the one request issued is `eth_requestAccounts`. -/
theorem handleConnect_success_connects (s : AppState) (l : List String)
    (hd : Disconnected s) (hl : l ≠ []) :
    handleConnect (Except.ok l) s =
      Except.ok ({ s with wallet := { accounts := l } }, [RpcMethod.eth_requestAccounts]) ∧
    (stateAfter (handleConnect (Except.ok l) s) s).wallet.accounts = l ∧
    (stateAfter (handleConnect (Except.ok l) s) s).wallet.accounts.headD "" = l.headD "" ∧
    Connected (stateAfter (handleConnect (Except.ok l) s) s) := by
  have h0 : ¬ s.wallet.accounts.length > 0 := by simp [hd]
  refine ⟨?_, ?_, ?_, ?_⟩ <;>
    simp [handleConnect, stateAfter, updateWallet, h0, Connected, hl]

/-- Witness for C1: connecting from the freshly mounted disconnected
state with the provider resolving to `["0xabc"]`. -/
theorem handleConnect_success_connects_witness :
    (stateAfter
        (handleConnect (Except.ok ["0xabc"]) { hasProvider := some true, wallet := initialState })
        { hasProvider := some true, wallet := initialState }).wallet.accounts = ["0xabc"] ∧
    Connected
      (stateAfter
        (handleConnect (Except.ok ["0xabc"]) { hasProvider := some true, wallet := initialState })
        { hasProvider := some true, wallet := initialState }) :=
  ⟨(handleConnect_success_connects _ ["0xabc"] rfl (by decide)).2.1,
   (handleConnect_success_connects _ ["0xabc"] rfl (by decide)).2.2.2⟩

/-- C2, counterexample to the claim as stated: in the Connected state
with accounts `["0xabc"]`, receiving an `accountsChanged` event with an
empty list leaves the component state unchanged (still Connected) —
App.tsx subscribes no event listener, so the claimed transition
Connected → Disconnected on `accountsChanged([])` does not exist. -/
theorem accountsChanged_event_ignored_counterexample :
    deliverProviderEvent (ProviderEvent.accountsChanged [])
        { hasProvider := some true, wallet := { accounts := ["0xabc"] } } =
      { hasProvider := some true, wallet := { accounts := ["0xabc"] } } := rfl

/-- C2 amended: the wallet-state machine has exactly two states,
Disconnected (accounts empty) and Connected (accounts non-empty); the
only transitions are Disconnected → Connected on a successful
`connect()` (which resolves with the non-empty accounts list), and
Connected → Disconnected on a click of the Disconnect button (for any
provider behavior).  No other transitions exist: from Disconnected, a
`connect()` that rejects, or that resolves with an empty list, leaves
the state exactly as it was; and provider events are not subscribed in
App.tsx, so an `accountsChanged` event — empty list or not — causes no
transition. -/
theorem wallet_state_machine :
    (∀ s : AppState, Disconnected s ∨ Connected s) ∧
    (∀ (s : AppState) (l : List String), Disconnected s → l ≠ [] →
      Connected (stateAfter (handleConnect (Except.ok l) s) s)) ∧
    (∀ (s : AppState) (resp : Except String (List String)), Connected s →
      Disconnected (stateAfter (handleConnect resp s) s)) ∧
    (∀ (s : AppState) (e : String), Disconnected s →
      stateAfter (handleConnect (Except.error e) s) s = s) ∧
    (∀ s : AppState, Disconnected s →
      stateAfter (handleConnect (Except.ok []) s) s = s) ∧
    (∀ (e : ProviderEvent) (s : AppState), deliverProviderEvent e s = s) := by
  refine ⟨fun s => ?_, fun s l hd hl => ?_, fun s resp hc => ?_,
    fun s e hd => ?_, fun s hd => ?_, fun e s => rfl⟩
  · by_cases h : s.wallet.accounts = [] <;> [exact Or.inl h; exact Or.inr h]
  · have h0 : ¬ s.wallet.accounts.length > 0 := by simp [hd]
    simp [handleConnect, stateAfter, updateWallet, h0, hl]
  · have h0 : s.wallet.accounts.length > 0 := List.length_pos.mpr hc
    simp [handleConnect, stateAfter, updateWallet, h0]
  · have h0 : ¬ s.wallet.accounts.length > 0 := by simp [hd]
    simp [handleConnect, stateAfter, h0]
  · obtain ⟨hp, ⟨acc⟩⟩ := s
    simp only [Disconnected] at hd
    subst hd
    rfl

/-- Witness for C2 (amended): at concrete inputs, the connect transition
at `["0xabc"]`, the disconnect transition from accounts `["0xabc"]`, the
absence of a transition from Disconnected on a rejected connect and on a
connect resolving with `[]`, and the inertness of the
`accountsChanged([])` event. -/
theorem wallet_state_machine_witness :
    Connected
      (stateAfter
        (handleConnect (Except.ok ["0xabc"]) { hasProvider := some true, wallet := initialState })
        { hasProvider := some true, wallet := initialState }) ∧
    Disconnected
      (stateAfter
        (handleConnect (Except.ok []) { hasProvider := some true, wallet := { accounts := ["0xabc"] } })
        { hasProvider := some true, wallet := { accounts := ["0xabc"] } }) ∧
    stateAfter
        (handleConnect (Except.error "User rejected")
          { hasProvider := some true, wallet := initialState })
        { hasProvider := some true, wallet := initialState } =
      { hasProvider := some true, wallet := initialState } ∧
    stateAfter
        (handleConnect (Except.ok []) { hasProvider := some true, wallet := initialState })
        { hasProvider := some true, wallet := initialState } =
      { hasProvider := some true, wallet := initialState } ∧
    deliverProviderEvent (ProviderEvent.accountsChanged [])
        { hasProvider := some true, wallet := { accounts := ["0xabc"] } } =
      { hasProvider := some true, wallet := { accounts := ["0xabc"] } } :=
  ⟨wallet_state_machine.2.1 _ ["0xabc"] rfl (by decide),
   wallet_state_machine.2.2.1 _ (Except.ok []) (by decide),
   wallet_state_machine.2.2.2.1 _ "User rejected" rfl,
   wallet_state_machine.2.2.2.2.1 _ rfl,
   wallet_state_machine.2.2.2.2.2 _ _⟩

/-- C3: in any Connected state, `handleConnect`'s toggle (disconnect)
branch returns the same state with only the accounts list cleared to
empty — `hasProvider` is untouched — and issues no provider request of
any kind (empty request trace), for any provider behavior `resp`. -/
theorem disconnect_clears_local_only (s : AppState)
    (resp : Except String (List String)) (hc : Connected s) :
    handleConnect resp s = Except.ok ({ s with wallet := { accounts := [] } }, []) := by
  have h0 : s.wallet.accounts.length > 0 := List.length_pos.mpr hc
  simp [handleConnect, updateWallet, h0]

/-- Witness for C3: disconnecting from the Connected state with accounts
`["0xabc"]` clears accounts, keeps `hasProvider`, and issues no request. -/
theorem disconnect_clears_local_only_witness :
    handleConnect (Except.ok ["0xdef"])
        { hasProvider := some true, wallet := { accounts := ["0xabc"] } } =
      Except.ok ({ hasProvider := some true, wallet := { accounts := [] } }, []) :=
  disconnect_clears_local_only _ _ (by decide)

/-- C4: in any Disconnected state, when `eth_requestAccounts` rejects,
the rejection is not handled by `handleConnect` (the error propagates as
the handler's result) and the local component state is unchanged:
accounts remains the empty list. -/
theorem rejection_propagates_state_unchanged (s : AppState) (e : String)
    (hd : Disconnected s) :
    handleConnect (Except.error e) s = Except.error e ∧
    stateAfter (handleConnect (Except.error e) s) s = s := by
  have h0 : ¬ s.wallet.accounts.length > 0 := by simp [hd]
  constructor <;> simp [handleConnect, stateAfter, h0]

/-- Witness for C4: a user rejection in the freshly mounted state. -/
theorem rejection_propagates_state_unchanged_witness :
    handleConnect (Except.error "User rejected the request")
        { hasProvider := some true, wallet := initialState } =
      Except.error "User rejected the request" ∧
    stateAfter
        (handleConnect (Except.error "User rejected the request")
          { hasProvider := some true, wallet := initialState })
        { hasProvider := some true, wallet := initialState } =
      { hasProvider := some true, wallet := initialState } :=
  rejection_propagates_state_unchanged _ _ rfl

/-- C5: in every state in which `hasProvider` is not `true` (detection
pending `null`, or provider absent `false`), the rendered view contains
no connect/disconnect button, regardless of the wallet state. -/
theorem no_provider_no_button (s : AppState) (h : s.hasProvider ≠ some true) :
    (render s).button = none := by
  simp [render, truthy, h]

/-- Witness for C5: the provider-absent state renders no button. -/
theorem no_provider_no_button_witness :
    (render { hasProvider := some false, wallet := { accounts := ["0xabc"] } }).button = none :=
  no_provider_no_button _ (by decide)

/-- C6, counterexample to the claim as stated: with the provider's
`isMetaMask` flag false but `hasProvider` true, the connect button is
rendered — so the button is not gated on `isMetaMask`. -/
theorem isMetaMask_gating_counterexample :
    (renderGivenIsMetaMask false { hasProvider := some true, wallet := initialState }).button =
      some "Connect MetaMask" := rfl

/-- C6 amended: src/src/App.tsx does not read `provider.isMetaMask` at
all — the rendered view is the same for any value of the flag — and the
connect/disconnect button is rendered exactly when `hasProvider` is
`true`. -/
theorem button_gated_on_hasProvider (b : Bool) (s : AppState) :
    renderGivenIsMetaMask b s = render s ∧
    ((render s).button.isSome ↔ s.hasProvider = some true) := by
  refine ⟨rfl, ?_⟩
  by_cases h : s.hasProvider = some true <;> simp [render, truthy, h]

/-- Witness for C6 (amended), at a concrete state and flag value. -/
theorem button_gated_on_hasProvider_witness :
    renderGivenIsMetaMask false { hasProvider := some true, wallet := initialState } =
      render { hasProvider := some true, wallet := initialState } ∧
    ((render { hasProvider := some true, wallet := initialState }).button.isSome ↔
      ({ hasProvider := some true, wallet := initialState } : AppState).hasProvider = some true) :=
  button_gated_on_hasProvider false _

/-- C7, counterexample to the claim as stated: at mount with a provider
present, the effect issues no RPC request (in particular neither
`eth_accounts` nor `eth_chainId`) and subscribes no event callback
(neither `accountsChanged` nor `chainChanged`) — both traces are empty. -/
theorem mountEffect_counterexample :
    (mountEffect true).2.1 = ([] : List RpcMethod) ∧
    (mountEffect true).2.2 = ([] : List String) := ⟨rfl, rfl⟩

/-- C7 amended: the mount effect (the `useEffect` with an empty
dependency array) runs the provider detector once and only stores the
detection result in `hasProvider`; it fetches no accounts or chain and
subscribes no event callbacks, whether or not a provider is present. -/
theorem mountEffect_only_detects (d : Bool) :
    mountEffect d = ({ hasProvider := some d, wallet := initialState }, [], []) := rfl

/-- C8: `refreshChain`, the `chainChanged` callback of the README
tutorial code, patches only the `chainId` field of the wallet record:
the accounts list and the balance are exactly as they were before the
event (in particular the balance is not re-fetched). -/
theorem refreshChain_patches_only_chainId (c : String) (w : WalletStateFull) :
    (refreshChain c w).chainId = c ∧
    (refreshChain c w).accounts = w.accounts ∧
    (refreshChain c w).balance = w.balance :=
  ⟨rfl, rfl, rfl⟩

/-- C9: `formatChainAsNum` parses a `0x`-prefixed hexadecimal string as
a base-16 integer; `formatChainAsNum "0x1"` is `1` and
`formatChainAsNum "0x89"` is `137`. -/
theorem formatChainAsNum_examples :
    formatChainAsNum "0x1" = some 1 ∧ formatChainAsNum "0x89" = some 137 := by
  constructor <;> decide

/-- C10: before detection has resolved (`hasProvider = null`) the view
renders the text "Injected Provider DOES NOT Exist" and no button, and
is identical to the provider-absent (`hasProvider = false`) rendering,
for every wallet state. -/
theorem null_provider_renders_as_absent (w : WalletState) :
    render { hasProvider := none, wallet := w } =
      render { hasProvider := some false, wallet := w } ∧
    (render { hasProvider := none, wallet := w }).providerText =
      "Injected Provider DOES NOT Exist" ∧
    (render { hasProvider := none, wallet := w }).button = none :=
  ⟨rfl, rfl, rfl⟩

end MetamaskDapp
